import Mathlib

/-!
Shallow embedding of the vacation-planner engine (verneylmavt/assistx-vp).

Modelling conventions:
* Calendar dates are `Int` (days since an arbitrary epoch); `date.today()` is
  an explicit `today : Int` parameter.  Timestamps (`datetime`) are `Int`
  hours since the epoch where the code manipulates them; `CalendarEvent`
  stores the `.date()` projection of its start/end timestamps, which is the
  only part of the timestamps the engine reads.
* Money (Python `float` prices) is modelled as `ℚ`; the code performs only
  additions, multiplications and comparisons on prices.
* `uuid4()` is modelled as a fresh-id counter `nextId` on the store, so ids
  are `Nat`; the confirmation-code string slices of the uuid are modelled as
  renderings of the fresh id.  `datetime.utcnow()` is an ambient clock `now`.
* Python dicts are total functions to `Option`; raising `ValueError`/`KeyError`
  is modelled with `Except String`.
-/

/-- `UserPreferences` from `app/models/domain.py`. -/
structure UserPreferences where
  user_id : String
  home_city : String
  default_currency : String := "USD"
  max_budget_total : Option ℚ := none
  max_budget_per_day : Option ℚ := none
  interests : List String := []
  travel_style : String := "balanced"
  preferred_airlines : List String := []
  preferred_hotel_types : List String := []
deriving DecidableEq

/-- `CalendarEvent` from `app/models/domain.py`; `start`/`end` hold the
`.date()` projection of the event timestamps (the engine only reads dates). -/
structure CalendarEvent where
  user_id : String
  title : String
  start : Int
  «end» : Int
  all_day : Bool := false
deriving DecidableEq

/-- `DateRange` from `app/models/domain.py`: inclusive start/end dates. -/
structure DateRange where
  start : Int
  «end» : Int
deriving DecidableEq

/-- `FlightOption` from `app/models/domain.py`; `departure`/`arrival` in hours. -/
structure FlightOption where
  id : String
  origin : String
  destination : String
  departure : Int
  arrival : Int
  airline : String
  cabin_class : String := "economy"
  price : ℚ
  currency : String := "USD"
deriving DecidableEq

/-- `HotelOption` from `app/models/domain.py`. -/
structure HotelOption where
  id : String
  destination_city : String
  name : String
  check_in : Int
  check_out : Int
  price_per_night : ℚ
  total_price : ℚ
  currency : String := "USD"
  rating : ℚ := 4
deriving DecidableEq

/-- `DayPlan` from `app/models/domain.py`. -/
structure DayPlan where
  date : Int
  morning : String
  afternoon : String
  evening : String
  notes : Option String := none
deriving DecidableEq

/-- `VacationPlan` from `app/models/domain.py`. -/
structure VacationPlan where
  user_id : String
  destination_city : String
  start_date : Int
  end_date : Int
  flight : FlightOption
  hotel : HotelOption
  daily_plans : List DayPlan
  estimated_total_cost : ℚ
  currency : String := "USD"
  status : String := "planned"
deriving DecidableEq

/-- `BookingRequest` from `app/models/domain.py` (`plan_id` is a store id). -/
structure BookingRequest where
  user_id : String
  session_id : String
  payment_token : String
  plan_id : Nat
deriving DecidableEq

/-- `BookingConfirmation` from `app/models/domain.py`. -/
structure BookingConfirmation where
  booking_id : Nat
  user_id : String
  session_id : String
  plan_id : Nat
  flight_confirmation_code : String
  hotel_confirmation_code : String
  total_charged : ℚ
  currency : String
  created_at : Int
deriving DecidableEq

/-- `SessionState` from `app/storage/in_memory.py`. -/
structure SessionState where
  session_id : String
  user_id : String
  last_plan_id : Option Nat := none
deriving DecidableEq

/-- The module-level in-memory "databases" of `app/storage/in_memory.py`
(PREFERENCES, CALENDAR_EVENTS, PLANS, BOOKINGS, SESSIONS), together with the
fresh-id counter modelling `uuid4()` and the ambient clock modelling
`datetime.utcnow()`. -/
structure Store where
  preferences : String → Option UserPreferences
  calendar_events : String → List CalendarEvent
  plans : Nat → Option VacationPlan
  bookings : Nat → Option BookingConfirmation
  sessions : String → Option SessionState
  nextId : Nat
  now : Int

/-- A store with every table empty (fresh process state). -/
def empty_store : Store where
  preferences := fun _ => none
  calendar_events := fun _ => []
  plans := fun _ => none
  bookings := fun _ => none
  sessions := fun _ => none
  nextId := 0
  now := 0

/-- `get_or_create_session` from `app/storage/in_memory.py`. -/
def get_or_create_session (session_id user_id : String) (s : Store) :
    SessionState × Store :=
  match s.sessions session_id with
  | some existing => (existing, s)
  | none =>
      let state : SessionState :=
        { session_id := session_id, user_id := user_id, last_plan_id := none }
      (state,
        { s with sessions := fun k => if k = session_id then some state else s.sessions k })

/-- `save_plan` from `app/storage/in_memory.py` (`uuid4()` as fresh counter). -/
def save_plan (plan : VacationPlan) (s : Store) : Nat × Store :=
  let plan_id := s.nextId
  (plan_id,
    { s with plans := fun k => if k = plan_id then some plan else s.plans k,
             nextId := s.nextId + 1 })

/-- `get_plan` from `app/storage/in_memory.py` (`PLANS[plan_id]`; a missing
key raises `KeyError`, surfaced here as `none`). -/
def get_plan (plan_id : Nat) (s : Store) : Option VacationPlan :=
  s.plans plan_id

/-- `save_booking` from `app/storage/in_memory.py`; the uuid is a fresh
counter and the sliced confirmation-code strings render that id. -/
def save_booking (user_id session_id : String) (plan_id : Nat) (total : ℚ)
    (currency : String) (s : Store) : BookingConfirmation × Store :=
  let booking_id := s.nextId
  let confirmation : BookingConfirmation :=
    { booking_id := booking_id
      user_id := user_id
      session_id := session_id
      plan_id := plan_id
      flight_confirmation_code := "FL-" ++ toString booking_id
      hotel_confirmation_code := "HT-" ++ toString booking_id
      total_charged := total
      currency := currency
      created_at := s.now }
  (confirmation,
    { s with bookings := fun k => if k = booking_id then some confirmation else s.bookings k,
             nextId := s.nextId + 1 })

/-- The default preferences record built by `get_or_create_preferences`. -/
def default_preferences (user_id : String) : UserPreferences where
  user_id := user_id
  home_city := "SIN"
  default_currency := "USD"
  max_budget_total := none
  max_budget_per_day := none
  interests := ["food", "museums"]
  travel_style := "balanced"
  preferred_airlines := []
  preferred_hotel_types := []

/-- `get_or_create_preferences` from `app/storage/in_memory.py`. -/
def get_or_create_preferences (user_id : String) (s : Store) :
    UserPreferences × Store :=
  match s.preferences user_id with
  | some prefs => (prefs, s)
  | none =>
      let prefs := default_preferences user_id
      (prefs,
        { s with preferences := fun k => if k = user_id then some prefs else s.preferences k })

/-- `get_user_preferences` from `app/services/preferences.py`. -/
def get_user_preferences (user_id : String) (s : Store) : UserPreferences × Store :=
  get_or_create_preferences user_id s

/-- `get_calendar_events` from `app/storage/in_memory.py`. -/
def get_calendar_events (user_id : String) (s : Store) : List CalendarEvent :=
  s.calendar_events user_id

/-- `set_calendar_events` from `app/storage/in_memory.py`. -/
def set_calendar_events (user_id : String) (events : List CalendarEvent)
    (s : Store) : Store :=
  { s with calendar_events := fun k => if k = user_id then events else s.calendar_events k }

/-- The all-day "Work" event `seed_mock_calendar` creates on `today + 3`
(`datetime.combine` with min/max time keeps both endpoints on that date). -/
def work_event (today : Int) (user_id : String) : CalendarEvent where
  user_id := user_id
  title := "Work"
  start := today + 3
  «end» := today + 3
  all_day := true

/-- `seed_mock_calendar` from `app/services/calendar.py`: when the user's
stored calendar is empty (a Python-falsy list), seed the one mock busy
event. -/
def seed_mock_calendar (today : Int) (user_id : String) (s : Store) : Store :=
  if get_calendar_events user_id s ≠ [] then s
  else set_calendar_events user_id [work_event today user_id] s

/-- The `busy_days` set of `find_free_date_ranges`: a date is busy when some
event's `[start.date(), end.date()]` interval contains it (the Python `while`
loop adds exactly those dates, and none when the interval is inverted). -/
def busy_day (busy_events : List CalendarEvent) (d : Int) : Bool :=
  busy_events.any fun e => decide (e.start ≤ d ∧ d ≤ e.«end»)

/-- The scanning loop of `find_free_date_ranges` (`app/services/calendar.py`,
lines 49-68), written as structural recursion over the remaining day count.
State `(k, d, start?)`: `k` days of the window remain, `d` is the current
date, `start?` is the `start` variable (the open free streak, if any).  The
`k = 0` case is the post-loop tail check with `d = today + window_days`.
Ranges are emitted in the same order the Python code appends them. -/
def free_scan (busy : Int → Bool) (trip_duration_days : Int) :
    Nat → Int → Option Int → List DateRange
  | 0, d, st =>
    match st with
    | none => []
    | some s =>
        if trip_duration_days ≤ d - s then [{ start := s, «end» := d - 1 }] else []
  | k + 1, d, st =>
    if busy d then
      match st with
      | some s =>
          if trip_duration_days ≤ d - s then
            { start := s, «end» := d - 1 } :: free_scan busy trip_duration_days k (d + 1) none
          else
            free_scan busy trip_duration_days k (d + 1) none
      | none => free_scan busy trip_duration_days k (d + 1) none
    else
      match st with
      | some s => free_scan busy trip_duration_days k (d + 1) (some s)
      | none => free_scan busy trip_duration_days k (d + 1) (some d)

/-- `find_free_date_ranges` after seeding: the busy-set construction plus the
scan, over a given event list (`app/services/calendar.py`, lines 38-70). -/
def find_free_date_ranges_events (busy_events : List CalendarEvent)
    (today trip_duration_days : Int) (window_days : Nat) : List DateRange :=
  free_scan (busy_day busy_events) trip_duration_days window_days today none

/-- `find_free_date_ranges` from `app/services/calendar.py`: seeds the mock
calendar, then scans the stored events. -/
def find_free_date_ranges (today : Int) (user_id : String)
    (trip_duration_days : Int) (window_days : Nat) (s : Store) :
    List DateRange × Store :=
  let s1 := seed_mock_calendar today user_id s
  (find_free_date_ranges_events (get_calendar_events user_id s1) today
      trip_duration_days window_days, s1)

/-- `mock_search_flights` from `app/services/travel_search.py`.  Departure is
`date_range.start + i` at hour `9 + i`, arrival 7 hours later, price
`300 + 50*i`; an offer is skipped when a budget is given and the price
exceeds it. -/
def mock_search_flights (origin destination : String) (date_range : DateRange)
    (max_budget : Option ℚ) (currency : String) : List FlightOption :=
  (List.range 3).filterMap fun (i : Nat) =>
    let dep_date := date_range.start + i
    let dep_time := 24 * dep_date + (9 + (i : Int))
    let arr_time := dep_time + 7
    let price : ℚ := 300 + (i : ℚ) * 50
    if (match max_budget with
        | some b => decide (b < price)
        | none => false) then
      none
    else
      some
        { id := "FL-" ++ origin ++ "-" ++ destination ++ "-" ++ toString i
          origin := origin
          destination := destination
          departure := dep_time
          arrival := arr_time
          airline := "Demo Air"
          cabin_class := "economy"
          price := price
          currency := currency }

/-- `mock_search_hotels` from `app/services/travel_search.py`.  Nights =
`(end - start).days` floored to 1; nightly price `80 + 30*i`; an offer is
skipped when a total budget is given and the total price exceeds it. -/
def mock_search_hotels (destination_city : String) (start_date end_date : Int)
    (max_budget_total : Option ℚ) (currency : String) : List HotelOption :=
  let nights : Int := if end_date - start_date ≤ 0 then 1 else end_date - start_date
  (List.range 3).filterMap fun (i : Nat) =>
    let price_per_night : ℚ := 80 + (i : ℚ) * 30
    let total_price := price_per_night * (nights : ℚ)
    if (match max_budget_total with
        | some b => decide (b < total_price)
        | none => false) then
      none
    else
      some
        { id := "HT-" ++ destination_city ++ "-" ++ toString i
          destination_city := destination_city
          name := "Demo Hotel " ++ toString i
          check_in := start_date
          check_out := end_date
          price_per_night := price_per_night
          total_price := total_price
          currency := currency
          rating := (7 + (i : ℚ)) / 2 }

/-- Python's `x or y` on `Optional[float]`: `y` when `x` is `None` *or* the
float `0.0` (both are falsy), else `x`.  Used by `search_flights_tool` as
`prefs.max_budget_total or prefs.max_budget_per_day`. -/
def py_or_opt_float (x y : Option ℚ) : Option ℚ :=
  match x with
  | some v => if v = 0 then y else some v
  | none => y

/-- `search_flights_tool` from `app/agent/vacation_agent.py`: loads the
caller's preferences, picks the budget ceiling with Python `or`, and runs the
mock flight search in the caller's default currency. -/
def search_flights_tool (user_id origin destination : String)
    (start «end» : Int) (s : Store) : List FlightOption × Store :=
  let pr := get_user_preferences user_id s
  let prefs := pr.1
  let max_budget := py_or_opt_float prefs.max_budget_total prefs.max_budget_per_day
  let date_range : DateRange := { start := start, «end» := «end» }
  (mock_search_flights origin destination date_range max_budget
      prefs.default_currency, pr.2)

/-- `search_hotels_tool` from `app/agent/vacation_agent.py`. -/
def search_hotels_tool (user_id destination_city : String)
    (start «end» : Int) (s : Store) : List HotelOption × Store :=
  let pr := get_user_preferences user_id s
  let prefs := pr.1
  (mock_search_hotels destination_city start «end» prefs.max_budget_total
      prefs.default_currency, pr.2)

/-- `BuildVacationPlanArgs` from `app/agent/vacation_agent.py` (extra fields
sent by the model are dropped by `extra='ignore'` and so never reach the
embedded function). -/
structure BuildVacationPlanArgs where
  destination_city : String
  start : Int
  «end» : Int
  flight : FlightOption
  hotel : HotelOption
deriving DecidableEq

/-- The afternoon activity text of `build_vacation_plan`:
`', '.join(prefs.interests) or 'free time'` (Python `or` on the possibly
empty joined string). -/
def afternoon_text (interests : List String) : String :=
  let joined := String.intercalate ", " interests
  "Enjoy something related to your interests: " ++
    (if joined = "" then "free time" else joined) ++ "."

/-- `build_vacation_plan` from `app/agent/vacation_agent.py`: day count is
`(end - start).days` floored to 1, one `DayPlan` per day starting at `start`,
total cost is flight price plus hotel total price, currency from preferences,
status `"planned"`. -/
def build_vacation_plan (user_id : String) (args : BuildVacationPlanArgs)
    (s : Store) : VacationPlan × Store :=
  let pr := get_user_preferences user_id s
  let prefs := pr.1
  let num_days : Int := if args.«end» - args.start ≤ 0 then 1 else args.«end» - args.start
  let total_cost := args.flight.price + args.hotel.total_price
  let daily_plans : List DayPlan :=
    (List.range num_days.toNat).map fun (i : Nat) =>
      { date := args.start + (i : Int)
        morning := "Explore a local attraction in " ++ args.destination_city ++ "."
        afternoon := afternoon_text prefs.interests
        evening := "Dinner at a recommended spot in " ++ args.destination_city ++ "."
        notes := none }
  ({ user_id := user_id
     destination_city := args.destination_city
     start_date := args.start
     end_date := args.«end»
     flight := args.flight
     hotel := args.hotel
     daily_plans := daily_plans
     estimated_total_cost := total_cost
     currency := prefs.default_currency
     status := "planned" }, pr.2)

/-- `perform_booking` from `app/services/bookings.py`: resolve (or create)
the session, look the plan up, reject when the plan's owner is not the
requester (`ValueError`), else record a fresh confirmation. -/
def perform_booking (request : BookingRequest) (s : Store) :
    Except String BookingConfirmation × Store :=
  let sr := get_or_create_session request.session_id request.user_id s
  let s1 := sr.2
  match get_plan request.plan_id s1 with
  | none => (Except.error "KeyError", s1)
  | some plan =>
      if plan.user_id ≠ request.user_id then
        (Except.error "Plan does not belong to this user", s1)
      else
        let br := save_booking request.user_id request.session_id request.plan_id
          plan.estimated_total_cost plan.currency s1
        (Except.ok br.1, br.2)

/-- `attach_plan_to_session` from `app/services/sessions.py`: get/create the
session, persist the plan under a fresh id, rebind the session's
`last_plan_id` to that id (Python mutates the shared `SessionState` object,
i.e. the stored record). -/
def attach_plan_to_session (session_id user_id : String) (plan : VacationPlan)
    (s : Store) : Nat × Store :=
  let sr := get_or_create_session session_id user_id s
  let session := sr.1
  let pr := save_plan plan sr.2
  let plan_id := pr.1
  let s2 := pr.2
  let updated := { session with last_plan_id := some plan_id }
  (plan_id,
    { s2 with sessions := fun k => if k = session_id then some updated else s2.sessions k })

/-- `get_latest_plan_for_session` from `app/services/sessions.py`. -/
def get_latest_plan_for_session (session_id user_id : String) (s : Store) :
    Option VacationPlan × Store :=
  let sr := get_or_create_session session_id user_id s
  let session := sr.1
  match session.last_plan_id with
  | none => (none, sr.2)
  | some plan_id => (sr.2.plans plan_id, sr.2)

/-- The confirmation record `perform_booking` produces on its success path
over store `s` (booking id and clock read off `s`). -/
def booking_confirmation_of (request : BookingRequest) (plan : VacationPlan)
    (s : Store) : BookingConfirmation where
  booking_id := s.nextId
  user_id := request.user_id
  session_id := request.session_id
  plan_id := request.plan_id
  flight_confirmation_code := "FL-" ++ toString s.nextId
  hotel_confirmation_code := "HT-" ++ toString s.nextId
  total_charged := plan.estimated_total_cost
  currency := plan.currency
  created_at := s.now

/-- Spec-side predicate, following the claim's words: `r` is a maximal run of
consecutive non-busy days inside the window `[today, today + window - 1]`
(free throughout, not extendable on either side within the window). -/
def isMaxFreeRun (busy : Int → Bool) (today : Int) (window : Nat)
    (r : DateRange) : Prop :=
  today ≤ r.start ∧ r.start ≤ r.«end» ∧ r.«end» < today + window ∧
  (∀ d, r.start ≤ d → d ≤ r.«end» → busy d = false) ∧
  (r.start = today ∨ busy (r.start - 1) = true) ∧
  (r.«end» = today + window - 1 ∨ busy (r.«end» + 1) = true)

/-- Spec-side predicate, following the claim's words: a maximal free run that
is at least `trip` days long. -/
def isQualifyingRun (busy : Int → Bool) (today : Int) (window : Nat)
    (trip : Int) (r : DateRange) : Prop :=
  isMaxFreeRun busy today window r ∧ trip ≤ r.«end» - r.start + 1

/-! Concrete fixtures used by counterexamples and witnesses. -/

/-- A concrete flight offer (shape of a `mock_search_flights` result). -/
def demo_flight : FlightOption where
  id := "FL-SIN-NRT-0"
  origin := "SIN"
  destination := "NRT"
  departure := 9
  arrival := 16
  airline := "Demo Air"
  cabin_class := "economy"
  price := 300
  currency := "USD"

/-- A concrete hotel offer (shape of a `mock_search_hotels` result). -/
def demo_hotel : HotelOption where
  id := "HT-Tokyo-0"
  destination_city := "Tokyo"
  name := "Demo Hotel 0"
  check_in := 0
  check_out := 5
  price_per_night := 80
  total_price := 400
  currency := "USD"
  rating := 7 / 2

/-- A concrete persisted plan owned by `user`. -/
def demo_plan (user : String) : VacationPlan where
  user_id := user
  destination_city := "Tokyo"
  start_date := 0
  end_date := 5
  flight := demo_flight
  hotel := demo_hotel
  daily_plans := []
  estimated_total_cost := 700
  currency := "USD"
  status := "planned"

/-- A store holding one persisted plan (id 0) owned by "U1" and nothing else. -/
def one_plan_store : Store :=
  { empty_store with
      plans := fun k => if k = 0 then some (demo_plan "U1") else none
      nextId := 1 }

/-- A booking request by "U1" (the plan owner) against plan 0. -/
def owner_request : BookingRequest where
  user_id := "U1"
  session_id := "S"
  payment_token := "tok"
  plan_id := 0

/-- A booking request by "U2" (not the plan owner) against plan 0. -/
def intruder_request : BookingRequest where
  user_id := "U2"
  session_id := "S"
  payment_token := "tok"
  plan_id := 0

/-- Stored preferences with a zero total budget and a per-day budget. -/
def zero_total_prefs : UserPreferences where
  user_id := "U"
  home_city := "SIN"
  default_currency := "USD"
  max_budget_total := some 0
  max_budget_per_day := some 1000
  interests := []
  travel_style := "balanced"
  preferred_airlines := []
  preferred_hotel_types := []

/-- A store whose user "U" has `max_budget_total = 0.0`. -/
def zero_total_store : Store :=
  { empty_store with
      preferences := fun k => if k = "U" then some zero_total_prefs else none }

/-- Stored preferences with a positive total budget of 500. -/
def budget_500_prefs : UserPreferences where
  user_id := "U"
  home_city := "SIN"
  default_currency := "USD"
  max_budget_total := some 500
  max_budget_per_day := some 100
  interests := []
  travel_style := "balanced"
  preferred_airlines := []
  preferred_hotel_types := []

/-- A store whose user "U" has `max_budget_total = 500`. -/
def budget_500_store : Store :=
  { empty_store with
      preferences := fun k => if k = "U" then some budget_500_prefs else none }

/-! # Theorems -/

/-- `(if a ≤ 0 then 1 else a) = max 1 a` over `Int`: the source's
floor-to-one idiom coincides with the claims' `max(1, ·)`. -/
theorem floor_one_eq_max (a : Int) : (if a ≤ 0 then 1 else a) = max 1 a := by
  rcases le_or_lt a 0 with h | h
  · rw [if_pos h, max_eq_left (by omega)]
  · rw [if_neg (by omega), max_eq_right (by omega)]

/-- Claim C1: every `VacationPlan` produced by `build_vacation_plan` has
`max 1 (end - start)` daily plans whose dates are the consecutive calendar
days starting exactly at the start date (so a same-day or inverted range
still yields exactly one `DayPlan`). -/
theorem C1_build_vacation_plan_day_plans (user_id : String)
    (args : BuildVacationPlanArgs) (s : Store) :
    ((build_vacation_plan user_id args s).1.daily_plans.map (fun p => p.date)) =
      (List.range (max 1 (args.«end» - args.start)).toNat).map
        (fun (i : Nat) => args.start + (i : Int)) ∧
    (((build_vacation_plan user_id args s).1.daily_plans.length : Int) =
      max 1 (args.«end» - args.start)) ∧
    (build_vacation_plan user_id args s).1.start_date = args.start ∧
    (build_vacation_plan user_id args s).1.end_date = args.«end» := by
  have hmax : (if args.«end» - args.start ≤ 0 then (1 : Int)
      else args.«end» - args.start) = max 1 (args.«end» - args.start) :=
    floor_one_eq_max _
  refine ⟨?_, ?_, rfl, rfl⟩
  · simp only [build_vacation_plan, List.map_map, hmax]
    rfl
  · simp only [build_vacation_plan, List.length_map, List.length_range, hmax]
    exact Int.toNat_of_nonneg (le_trans zero_le_one (le_max_left _ _))

/-- Claim C2: every plan assembled by `build_vacation_plan` has
`estimated_total_cost` exactly equal to the chosen flight's price plus the
chosen hotel's total price. -/
theorem C2_build_vacation_plan_total_cost (user_id : String)
    (args : BuildVacationPlanArgs) (s : Store) :
    (build_vacation_plan user_id args s).1.estimated_total_cost =
      args.flight.price + args.hotel.total_price := rfl

/-- Claim C10: every `HotelOption` returned by `mock_search_hotels` has
`total_price = price_per_night * max 1 (end_date - start_date)`, checks in on
the requested start date and checks out on the requested end date. -/
theorem C10_mock_search_hotels_pricing (destination_city : String)
    (start_date end_date : Int) (max_budget_total : Option ℚ)
    (currency : String) :
    ∀ h ∈ mock_search_hotels destination_city start_date end_date
        max_budget_total currency,
      h.total_price = h.price_per_night * ((max 1 (end_date - start_date) : Int) : ℚ) ∧
      h.check_in = start_date ∧ h.check_out = end_date := by
  intro h hm
  simp only [mock_search_hotels, List.mem_filterMap, List.mem_range] at hm
  obtain ⟨i, _, hf⟩ := hm
  split at hf <;> split at hf
  · exact Option.noConfusion hf
  · obtain rfl := Option.some_inj.mp hf
    refine ⟨?_, rfl, rfl⟩
    rw [show (max 1 (end_date - start_date) : Int) = 1 from max_eq_left (by omega)]
  · exact Option.noConfusion hf
  · obtain rfl := Option.some_inj.mp hf
    refine ⟨?_, rfl, rfl⟩
    rw [show (max 1 (end_date - start_date) : Int) = end_date - start_date from
      max_eq_right (by omega)]

/-- Witness for C10 at a concrete call: `mock_search_hotels "Tokyo" 0 5 none
"USD"` contains the nightly-80 hotel, and the theorem's conclusions hold for
it. -/
theorem C10_mock_search_hotels_pricing_witness :
    demo_hotel ∈ mock_search_hotels "Tokyo" 0 5 none "USD" ∧
      (demo_hotel.total_price =
        demo_hotel.price_per_night * ((max 1 ((5 : Int) - 0) : Int) : ℚ) ∧
      demo_hotel.check_in = 0 ∧ demo_hotel.check_out = 5) := by
  have hmem : demo_hotel ∈ mock_search_hotels "Tokyo" 0 5 none "USD" := by
    simp only [mock_search_hotels, List.range_succ, List.range_zero, List.filterMap,
      List.nil_append, List.cons_append, demo_hotel]
    norm_num
    exact ⟨rfl, rfl⟩
  exact ⟨hmem, C10_mock_search_hotels_pricing "Tokyo" 0 5 none "USD" demo_hotel hmem⟩

/-- Every flight option returned by `mock_search_flights` is priced in the
requested currency and, when a budget ceiling is given, costs at most that
ceiling (the generator skips offers above the budget). -/
theorem mock_search_flights_currency_budget (origin destination : String)
    (date_range : DateRange) (max_budget : Option ℚ) (currency : String) :
    ∀ f ∈ mock_search_flights origin destination date_range max_budget currency,
      f.currency = currency ∧ ∀ b, max_budget = some b → f.price ≤ b := by
  intro f hm
  simp only [mock_search_flights, List.mem_filterMap, List.mem_range] at hm
  obtain ⟨i, _, hf⟩ := hm
  split at hf
  · exact Option.noConfusion hf
  · obtain rfl := Option.some_inj.mp hf
    rename_i hcond
    refine ⟨rfl, ?_⟩
    intro b hb
    rw [hb] at hcond
    simp only [decide_eq_true_eq] at hcond
    exact le_of_not_lt hcond

/-- Claim C8 (amended): every flight returned by `search_flights_tool` is in
the caller's default currency and respects the effective budget ceiling: the
total ceiling whenever it is set and nonzero; when the total ceiling is unset
or zero (Python `or` treats `0.0` as falsy), the per-day ceiling whenever
that is set. -/
theorem C8_search_flights_tool_budget_currency (user_id origin destination : String)
    (start «end» : Int) (s : Store) :
    ∀ f ∈ (search_flights_tool user_id origin destination start «end» s).1,
      f.currency = (get_user_preferences user_id s).1.default_currency ∧
      (∀ t, (get_user_preferences user_id s).1.max_budget_total = some t → t ≠ 0 →
        f.price ≤ t) ∧
      (∀ p, ((get_user_preferences user_id s).1.max_budget_total = none ∨
             (get_user_preferences user_id s).1.max_budget_total = some 0) →
        (get_user_preferences user_id s).1.max_budget_per_day = some p →
        f.price ≤ p) := by
  intro f hm
  simp only [search_flights_tool] at hm
  have h := mock_search_flights_currency_budget origin destination
    { start := start, «end» := «end» }
    (py_or_opt_float (get_user_preferences user_id s).1.max_budget_total
      (get_user_preferences user_id s).1.max_budget_per_day)
    (get_user_preferences user_id s).1.default_currency f hm
  refine ⟨h.1, ?_, ?_⟩
  · intro t ht hne
    apply h.2 t
    rw [ht]
    simp [py_or_opt_float, hne]
  · intro p htot hper
    apply h.2 p
    rcases htot with h0 | h0 <;> simp [py_or_opt_float, h0, hper]

/-- Counterexample to claim C8 as stated: with a stored total budget ceiling
of `0.0`, `search_flights_tool` still returns flights costing 300+, because
`prefs.max_budget_total or prefs.max_budget_per_day` discards a zero (falsy)
total; the claim requires every returned price to be at most the set total
ceiling (here 0). -/
theorem C8_counterexample :
    (get_user_preferences "U" zero_total_store).1.max_budget_total = some 0 ∧
    ¬ (∀ f ∈ (search_flights_tool "U" "SIN" "NRT" 0 5 zero_total_store).1,
        f.price ≤ (0 : ℚ)) := by
  have hpref : (get_user_preferences "U" zero_total_store).1 = zero_total_prefs := by
    simp [get_user_preferences, get_or_create_preferences, zero_total_store, empty_store]
  refine ⟨by rw [hpref]; rfl, ?_⟩
  intro hall
  have hmem : demo_flight ∈ (search_flights_tool "U" "SIN" "NRT" 0 5 zero_total_store).1 := by
    simp only [search_flights_tool, hpref]
    simp only [zero_total_prefs, py_or_opt_float, if_pos rfl]
    simp only [mock_search_flights, List.range_succ, List.range_zero, List.filterMap,
      List.nil_append, List.cons_append, demo_flight]
    norm_num
    rfl
  have := hall demo_flight hmem
  norm_num [demo_flight] at this

/-- Witness for the amended C8 at a concrete store: user "U" has a total
budget of 500; the 300-priced flight is returned and satisfies the currency
and budget conclusions. -/
theorem C8_search_flights_tool_budget_currency_witness :
    demo_flight ∈ (search_flights_tool "U" "SIN" "NRT" 0 5 budget_500_store).1 ∧
      (demo_flight.currency =
        (get_user_preferences "U" budget_500_store).1.default_currency ∧
      (∀ t, (get_user_preferences "U" budget_500_store).1.max_budget_total = some t →
        t ≠ 0 → demo_flight.price ≤ t) ∧
      (∀ p, ((get_user_preferences "U" budget_500_store).1.max_budget_total = none ∨
             (get_user_preferences "U" budget_500_store).1.max_budget_total = some 0) →
        (get_user_preferences "U" budget_500_store).1.max_budget_per_day = some p →
        demo_flight.price ≤ p)) := by
  have hpref : (get_user_preferences "U" budget_500_store).1 = budget_500_prefs := by
    simp [get_user_preferences, get_or_create_preferences, budget_500_store, empty_store]
  have hmem : demo_flight ∈ (search_flights_tool "U" "SIN" "NRT" 0 5 budget_500_store).1 := by
    simp only [search_flights_tool, hpref]
    simp only [budget_500_prefs, py_or_opt_float]
    norm_num
    simp only [mock_search_flights, List.range_succ, List.range_zero, List.filterMap,
      List.nil_append, List.cons_append, demo_flight]
    norm_num
    rfl
  exact ⟨hmem,
    C8_search_flights_tool_budget_currency "U" "SIN" "NRT" 0 5 budget_500_store
      demo_flight hmem⟩

/-- Claim C9: `get_or_create_session` is idempotent — the first call for an
absent session id creates a session with no attached plan, and a subsequent
call with the same id (even with a different user id) returns the existing
state with the store unchanged. -/
theorem C9_get_or_create_session_idempotent (session_id uid1 uid2 : String)
    (s : Store) :
    (s.sessions session_id = none →
      (get_or_create_session session_id uid1 s).1 =
        { session_id := session_id, user_id := uid1, last_plan_id := none }) ∧
    (get_or_create_session session_id uid2
        (get_or_create_session session_id uid1 s).2).1 =
      (get_or_create_session session_id uid1 s).1 ∧
    (get_or_create_session session_id uid2
        (get_or_create_session session_id uid1 s).2).2 =
      (get_or_create_session session_id uid1 s).2 := by
  cases h : s.sessions session_id with
  | some st =>
      refine ⟨fun hn => Option.noConfusion hn, ?_, ?_⟩
      · simp [get_or_create_session, h]
      · simp [get_or_create_session, h]
  | none =>
      simp [get_or_create_session, h]

/-- Witness for C9 on the empty store: the first call creates session "S" for
"U1" with no plan; a second call for "S" carrying user "U2" returns the same
state and leaves the store untouched. -/
theorem C9_get_or_create_session_idempotent_witness :
    (empty_store.sessions "S" = none →
      (get_or_create_session "S" "U1" empty_store).1 =
        { session_id := "S", user_id := "U1", last_plan_id := none }) ∧
    (get_or_create_session "S" "U2"
        (get_or_create_session "S" "U1" empty_store).2).1 =
      (get_or_create_session "S" "U1" empty_store).1 ∧
    (get_or_create_session "S" "U2"
        (get_or_create_session "S" "U1" empty_store).2).2 =
      (get_or_create_session "S" "U1" empty_store).2 :=
  C9_get_or_create_session_idempotent "S" "U1" "U2" empty_store

/-- Claim C7: attaching plan A and then plan B to the same session rebinds
the single last-plan reference, so `get_latest_plan_for_session` afterwards
returns B. -/
theorem C7_attach_overwrites_last_plan (session_id user_id : String)
    (pA pB : VacationPlan) (s : Store) :
    (get_latest_plan_for_session session_id user_id
      (attach_plan_to_session session_id user_id pB
        (attach_plan_to_session session_id user_id pA s).2).2).1 = some pB := by
  cases h : s.sessions session_id <;>
    simp [attach_plan_to_session, get_latest_plan_for_session,
      get_or_create_session, save_plan, h]

/-- `get_or_create_session` touches only the sessions table: plans, bookings,
preferences, the id counter and the clock are unchanged. -/
theorem get_or_create_session_preserves (session_id user_id : String) (s : Store) :
    (get_or_create_session session_id user_id s).2.plans = s.plans ∧
    (get_or_create_session session_id user_id s).2.bookings = s.bookings ∧
    (get_or_create_session session_id user_id s).2.preferences = s.preferences ∧
    (get_or_create_session session_id user_id s).2.nextId = s.nextId ∧
    (get_or_create_session session_id user_id s).2.now = s.now := by
  cases h : s.sessions session_id <;> simp [get_or_create_session, h]

/-- Success path of `perform_booking`: when the plan resolves and belongs to
the requester, the call returns a fresh confirmation, records it under the
fresh id, and leaves the plans table intact while bumping the id counter. -/
theorem perform_booking_success (request : BookingRequest) (s : Store)
    (plan : VacationPlan) (hplan : s.plans request.plan_id = some plan)
    (howner : plan.user_id = request.user_id) :
    (perform_booking request s).1 =
      Except.ok (booking_confirmation_of request plan s) ∧
    (∀ k, (perform_booking request s).2.bookings k =
      if k = s.nextId then some (booking_confirmation_of request plan s)
      else s.bookings k) ∧
    (perform_booking request s).2.plans = s.plans ∧
    (perform_booking request s).2.nextId = s.nextId + 1 ∧
    (perform_booking request s).2.now = s.now := by
  cases h : s.sessions request.session_id <;>
    simp [perform_booking, get_or_create_session, get_plan, save_booking,
      booking_confirmation_of, h, hplan, howner]

/-- Claim C6 (amended): a booking request against a plan owned by a different
user fails with the ownership `ValueError`, produces no confirmation record
and leaves plans, bookings and preferences unchanged; the call may however
create a session record for the given session id (the session lookup/creation
runs before the ownership check). -/
theorem C6_perform_booking_ownership_error (request : BookingRequest) (s : Store)
    (plan : VacationPlan) (hplan : s.plans request.plan_id = some plan)
    (howner : plan.user_id ≠ request.user_id) :
    (perform_booking request s).1 =
      Except.error "Plan does not belong to this user" ∧
    (perform_booking request s).2.bookings = s.bookings ∧
    (perform_booking request s).2.plans = s.plans ∧
    (perform_booking request s).2.preferences = s.preferences := by
  cases h : s.sessions request.session_id <;>
    simp [perform_booking, get_or_create_session, get_plan, h, hplan, howner]

/-- Counterexample to claim C6 as stated: booking plan 0 (owned by "U1") as
requester "U2" raises the ownership error, yet the failed call *does* mutate
the store — it creates the previously absent session "S". -/
theorem C6_counterexample :
    (perform_booking intruder_request one_plan_store).1 =
      Except.error "Plan does not belong to this user" ∧
    one_plan_store.sessions "S" = none ∧
    (perform_booking intruder_request one_plan_store).2.sessions "S" =
      some { session_id := "S", user_id := "U2", last_plan_id := none } :=
  ⟨rfl, rfl, rfl⟩

/-- Witness for the amended C6 at the concrete one-plan store: requester "U2"
against the plan owned by "U1". -/
theorem C6_perform_booking_ownership_error_witness :
    (one_plan_store.plans intruder_request.plan_id = some (demo_plan "U1") ∧
      (demo_plan "U1").user_id ≠ intruder_request.user_id) ∧
    ((perform_booking intruder_request one_plan_store).1 =
      Except.error "Plan does not belong to this user" ∧
    (perform_booking intruder_request one_plan_store).2.bookings =
      one_plan_store.bookings ∧
    (perform_booking intruder_request one_plan_store).2.plans =
      one_plan_store.plans ∧
    (perform_booking intruder_request one_plan_store).2.preferences =
      one_plan_store.preferences) :=
  ⟨⟨rfl, by decide⟩,
    C6_perform_booking_ownership_error intruder_request one_plan_store
      (demo_plan "U1") rfl (by decide)⟩

/-- Claim C5 (amended): the store does not enforce at-most-one-booking per
plan — when the plan resolves and belongs to the requester, a first
`perform_booking` call succeeds and records a confirmation, and a second call
for the same plan id succeeds again, creating a second, independent
confirmation record under a fresh id while the first record remains. -/
theorem C5_second_booking_creates_new_record (request : BookingRequest)
    (s : Store) (plan : VacationPlan)
    (hfresh : s.bookings (s.nextId + 1) = none)
    (hplan : s.plans request.plan_id = some plan)
    (howner : plan.user_id = request.user_id) :
    (perform_booking request s).1 =
      Except.ok (booking_confirmation_of request plan s) ∧
    (perform_booking request s).2.bookings s.nextId =
      some (booking_confirmation_of request plan s) ∧
    (perform_booking request s).2.bookings (s.nextId + 1) = none ∧
    (perform_booking request (perform_booking request s).2).1 =
      Except.ok (booking_confirmation_of request plan (perform_booking request s).2) ∧
    (perform_booking request (perform_booking request s).2).2.bookings (s.nextId + 1) =
      some (booking_confirmation_of request plan (perform_booking request s).2) ∧
    (booking_confirmation_of request plan (perform_booking request s).2).booking_id =
      s.nextId + 1 ∧
    (perform_booking request (perform_booking request s).2).2.bookings s.nextId =
      some (booking_confirmation_of request plan s) ∧
    (booking_confirmation_of request plan s).plan_id = request.plan_id ∧
    (booking_confirmation_of request plan (perform_booking request s).2).plan_id =
      request.plan_id := by
  obtain ⟨h1, h2, h3, h4, _⟩ := perform_booking_success request s plan hplan howner
  have hplan1 : (perform_booking request s).2.plans request.plan_id = some plan := by
    rw [h3, hplan]
  obtain ⟨g1, g2, _, _, _⟩ :=
    perform_booking_success request (perform_booking request s).2 plan hplan1 howner
  refine ⟨h1, ?_, ?_, g1, ?_, ?_, ?_, rfl, rfl⟩
  · rw [h2 s.nextId, if_pos rfl]
  · rw [h2 (s.nextId + 1), if_neg (by omega), hfresh]
  · rw [g2 (s.nextId + 1), h4, if_pos rfl]
  · simp [booking_confirmation_of, h4]
  · rw [g2 s.nextId, h4, if_neg (by omega), h2 s.nextId, if_pos rfl]

/-- Counterexample to claim C5 as stated: after a successful booking of plan 0
by its owner, a *second* booking call for the same plan id succeeds and
creates a second confirmation record (booking id 2, absent before the second
call), so the store does not enforce at-most-one confirmation per plan. -/
theorem C5_counterexample :
    (perform_booking owner_request one_plan_store).1 =
      Except.ok (booking_confirmation_of owner_request (demo_plan "U1")
        one_plan_store) ∧
    (perform_booking owner_request one_plan_store).2.bookings 2 = none ∧
    (perform_booking owner_request
        (perform_booking owner_request one_plan_store).2).2.bookings 2 =
      some { booking_id := 2, user_id := "U1", session_id := "S", plan_id := 0,
             flight_confirmation_code := "FL-2", hotel_confirmation_code := "HT-2",
             total_charged := 700, currency := "USD", created_at := 0 } :=
  ⟨rfl, rfl, rfl⟩

/-- Witness for the amended C5 at the concrete one-plan store, applying the
theorem with its freshness/resolution/ownership hypotheses discharged. -/
theorem C5_second_booking_creates_new_record_witness :
    (one_plan_store.bookings (one_plan_store.nextId + 1) = none ∧
      one_plan_store.plans owner_request.plan_id = some (demo_plan "U1") ∧
      (demo_plan "U1").user_id = owner_request.user_id) ∧
    ((perform_booking owner_request one_plan_store).1 =
      Except.ok (booking_confirmation_of owner_request (demo_plan "U1")
        one_plan_store) ∧
    (perform_booking owner_request one_plan_store).2.bookings
        one_plan_store.nextId =
      some (booking_confirmation_of owner_request (demo_plan "U1")
        one_plan_store) ∧
    (perform_booking owner_request one_plan_store).2.bookings
        (one_plan_store.nextId + 1) = none ∧
    (perform_booking owner_request
        (perform_booking owner_request one_plan_store).2).1 =
      Except.ok (booking_confirmation_of owner_request (demo_plan "U1")
        (perform_booking owner_request one_plan_store).2) ∧
    (perform_booking owner_request
        (perform_booking owner_request one_plan_store).2).2.bookings
        (one_plan_store.nextId + 1) =
      some (booking_confirmation_of owner_request (demo_plan "U1")
        (perform_booking owner_request one_plan_store).2) ∧
    (booking_confirmation_of owner_request (demo_plan "U1")
        (perform_booking owner_request one_plan_store).2).booking_id =
      one_plan_store.nextId + 1 ∧
    (perform_booking owner_request
        (perform_booking owner_request one_plan_store).2).2.bookings
        one_plan_store.nextId =
      some (booking_confirmation_of owner_request (demo_plan "U1")
        one_plan_store) ∧
    (booking_confirmation_of owner_request (demo_plan "U1")
        one_plan_store).plan_id = owner_request.plan_id ∧
    (booking_confirmation_of owner_request (demo_plan "U1")
        (perform_booking owner_request one_plan_store).2).plan_id =
      owner_request.plan_id) :=
  ⟨⟨rfl, rfl, rfl⟩,
    C5_second_booking_creates_new_record owner_request one_plan_store
      (demo_plan "U1") rfl rfl rfl⟩

/-- A qualifying run that starts inside the currently open free stretch
`[s, e)` (free throughout, left-maximal at `s`, with `e` either the end of
the window or a busy day) must be exactly `[s, e-1]`. -/
theorem qual_run_start_end (busy : Int → Bool) (today : Int) (window : Nat)
    (trip : Int) (s e : Int) (r : DateRange)
    (hs_today : today ≤ s) (hse : s < e) (heW : e ≤ today + window)
    (hfree : ∀ x, s ≤ x → x < e → busy x = false)
    (hstop : e = today + window ∨ busy e = true)
    (hq : isQualifyingRun busy today window trip r)
    (hsr : s ≤ r.start) (hre : r.start < e) :
    r.start = s ∧ r.«end» = e - 1 := by
  obtain ⟨⟨h1, h2, h3, h4, h5, h6⟩, _⟩ := hq
  have hstart : r.start = s := by
    rcases h5 with h5 | h5
    · omega
    · by_contra hne
      have hfr := hfree (r.start - 1) (by omega) (by omega)
      rw [hfr] at h5
      exact Bool.noConfusion h5
  refine ⟨hstart, ?_⟩
  rcases lt_trichotomy r.«end» (e - 1) with hlt | heq | hgt
  · rcases h6 with h6 | h6
    · omega
    · have hfr := hfree (r.«end» + 1) (by omega) (by omega)
      rw [hfr] at h6
      exact Bool.noConfusion h6
  · exact heq
  · exfalso
    rcases hstop with h0 | h0
    · omega
    · have hfr := h4 e (by omega) (by omega)
      rw [hfr] at h0
      exact Bool.noConfusion h0

/-- Projection of a literal `DateRange`. -/
theorem DateRange_mk_start (a b : Int) : (DateRange.mk a b).start = a := rfl

/-- Projection of a literal `DateRange`. -/
theorem DateRange_mk_end (a b : Int) : (DateRange.mk a b).«end» = b := rfl

/-- A `DateRange` with known fields is the corresponding literal. -/
theorem DateRange_eq_mk (x : DateRange) (a b : Int) (h1 : x.start = a)
    (h2 : x.«end» = b) : x = DateRange.mk a b := by
  cases x
  simp only [DateRange_mk_start, DateRange_mk_end] at h1 h2
  rw [h1, h2]

/-- `isQualifyingRun` on a literal range, with the projections unfolded. -/
theorem isQualifyingRun_mk_iff (busy : Int → Bool) (today : Int) (window : Nat)
    (trip a b : Int) :
    isQualifyingRun busy today window trip (DateRange.mk a b) ↔
      (today ≤ a ∧ a ≤ b ∧ b < today + window ∧
        (∀ x, a ≤ x → x ≤ b → busy x = false) ∧
        (a = today ∨ busy (a - 1) = true) ∧
        (b = today + window - 1 ∨ busy (b + 1) = true)) ∧
      trip ≤ b - a + 1 := Iff.rfl

/-- Loop invariant of the scan in `find_free_date_ranges`: from state
`(k, d, st)` — `k` window days remaining, current day `d`, open streak `st` —
the scan emits exactly the qualifying maximal free runs that start at or
after the open streak's start (or at/after `d` if no streak is open), in
strictly increasing, non-overlapping order. -/
theorem free_scan_spec (busy : Int → Bool) (trip : Int) (today : Int)
    (window : Nat) (htrip : 1 ≤ trip) :
    ∀ (k : Nat) (d : Int) (st : Option Int),
      d = today + window - k →
      k ≤ window →
      (match st with
       | none => d = today ∨ busy (d - 1) = true
       | some s => today ≤ s ∧ s < d ∧ (∀ x, s ≤ x → x < d → busy x = false) ∧
           (s = today ∨ busy (s - 1) = true)) →
      ((∀ r, r ∈ free_scan busy trip k d st ↔
          (isQualifyingRun busy today window trip r ∧
            (match st with | none => d ≤ r.start | some s => s ≤ r.start))) ∧
        (free_scan busy trip k d st).Pairwise (fun a b => a.«end» < b.start)) := by
  intro k
  induction k with
  | zero =>
      intro d st hd _ hinv
      cases st with
      | none =>
          refine ⟨fun r => ⟨fun h => absurd h (List.not_mem_nil r), ?_⟩, by
            simp [free_scan]⟩
          rintro ⟨⟨⟨_, h2, h3, _, _, _⟩, _⟩, hge⟩
          simp only at hge
          omega
      | some s =>
          obtain ⟨hs1, hs2, hs3, hs4⟩ := hinv
          by_cases hcond : trip ≤ d - s
          · have heq : free_scan busy trip 0 d (some s) =
                [{ start := s, «end» := d - 1 }] := by
              simp [free_scan, hcond]
            rw [heq]
            refine ⟨fun r => ?_, by simp⟩
            rw [List.mem_singleton]
            simp only
            constructor
            · rintro rfl
              rw [isQualifyingRun_mk_iff]
              refine ⟨⟨⟨hs1, by omega, by omega,
                fun x hx1 hx2 => hs3 x hx1 (by omega), hs4, Or.inl (by omega)⟩,
                by omega⟩, by simp [DateRange_mk_start]⟩
            · rintro ⟨hq, hsr⟩
              have hre : r.start < d := by
                obtain ⟨⟨_, hq2, hq3, _, _, _⟩, _⟩ := hq
                omega
              obtain ⟨he1, he2⟩ := qual_run_start_end busy today window trip s d r
                hs1 hs2 (by omega) hs3 (Or.inl (by omega)) hq hsr hre
              exact DateRange_eq_mk r s (d - 1) he1 he2
          · have heq : free_scan busy trip 0 d (some s) = [] := by
              simp [free_scan, hcond]
            rw [heq]
            refine ⟨fun r => ⟨fun h => absurd h (List.not_mem_nil r), ?_⟩, by simp⟩
            rintro ⟨hq, hsr⟩
            simp only at hsr
            have hre : r.start < d := by
              obtain ⟨⟨_, hq2, hq3, _, _, _⟩, _⟩ := hq
              omega
            obtain ⟨he1, he2⟩ := qual_run_start_end busy today window trip s d r
              hs1 hs2 (by omega) hs3 (Or.inl (by omega)) hq hsr hre
            obtain ⟨_, hlen⟩ := hq
            omega
  | succ k ih =>
      intro d st hd hk hinv
      have hd' : d + 1 = today + (window : Int) - k := by
        push_cast at hd
        omega
      by_cases hb : busy d = true
      · cases st with
        | none =>
            have heq : free_scan busy trip (k + 1) d none =
                free_scan busy trip k (d + 1) none := by
              simp [free_scan, hb]
            obtain ⟨ihiff, ihpair⟩ := ih (d + 1) none hd' (by omega)
              (Or.inr (by simpa using hb))
            rw [heq]
            refine ⟨fun r => ?_, ihpair⟩
            rw [ihiff r]
            simp only
            constructor
            · rintro ⟨hq, hge⟩
              exact ⟨hq, by omega⟩
            · rintro ⟨hq, hge⟩
              refine ⟨hq, ?_⟩
              rcases eq_or_lt_of_le hge with heqd | hlt
              · exfalso
                obtain ⟨⟨_, hq2, _, hq4, _, _⟩, _⟩ := hq
                have hfr := hq4 r.start le_rfl (by omega)
                rw [heqd] at hb
                rw [hfr] at hb
                exact Bool.noConfusion hb
              · omega
        | some s =>
            obtain ⟨hs1, hs2, hs3, hs4⟩ := hinv
            obtain ⟨ihiff, ihpair⟩ := ih (d + 1) none hd' (by omega)
              (Or.inr (by simpa using hb))
            have key : ∀ r : DateRange,
                (isQualifyingRun busy today window trip r ∧ s ≤ r.start) ↔
                ((r = { start := s, «end» := d - 1 } ∧ trip ≤ d - s) ∨
                  (isQualifyingRun busy today window trip r ∧ d + 1 ≤ r.start)) := by
              intro r
              constructor
              · rintro ⟨hq, hsr⟩
                rcases lt_trichotomy r.start d with hlt | heqd | hgt
                · left
                  obtain ⟨he1, he2⟩ := qual_run_start_end busy today window trip s d r
                    hs1 hs2 (by omega) hs3 (Or.inr hb) hq hsr hlt
                  obtain ⟨_, hlen⟩ := hq
                  exact ⟨DateRange_eq_mk r s (d - 1) he1 he2, by omega⟩
                · exfalso
                  obtain ⟨⟨_, hq2, _, hq4, _, _⟩, _⟩ := hq
                  have hfr := hq4 r.start le_rfl (by omega)
                  rw [heqd] at hfr
                  rw [hfr] at hb
                  exact Bool.noConfusion hb
                · right
                  exact ⟨hq, by omega⟩
              · rintro (⟨rfl, hlen⟩ | ⟨hq, hge⟩)
                · rw [isQualifyingRun_mk_iff]
                  refine ⟨⟨⟨hs1, by omega, by omega,
                    fun x hx1 hx2 => hs3 x hx1 (by omega), hs4,
                    Or.inr (by simpa using hb)⟩, by omega⟩, by simp [DateRange_mk_start]⟩
                · exact ⟨hq, by omega⟩
            by_cases hcond : trip ≤ d - s
            · have heq : free_scan busy trip (k + 1) d (some s) =
                  { start := s, «end» := d - 1 } ::
                    free_scan busy trip k (d + 1) none := by
                simp [free_scan, hb, hcond]
              rw [heq]
              constructor
              · intro r
                simp only
                constructor
                · intro hmem
                  rcases List.mem_cons.mp hmem with rfl | htail
                  · exact (key _).mpr (Or.inl ⟨rfl, hcond⟩)
                  · have hh := (ihiff _).mp htail
                    simp only at hh
                    exact (key _).mpr (Or.inr hh)
                · intro hrhs
                  rcases (key r).mp hrhs with ⟨rfl, _⟩ | hh
                  · exact List.mem_cons_self _ _
                  · refine List.mem_cons_of_mem _ ((ihiff r).mpr ?_)
                    simp only
                    exact hh
              · rw [List.pairwise_cons]
                refine ⟨fun r' hr' => ?_, ihpair⟩
                have hh := (ihiff r').mp hr'
                simp only at hh
                obtain ⟨_, hge⟩ := hh
                simp only [DateRange_mk_end]
                omega
            · have heq : free_scan busy trip (k + 1) d (some s) =
                  free_scan busy trip k (d + 1) none := by
                simp [free_scan, hb, hcond]
              rw [heq]
              refine ⟨fun r => ?_, ihpair⟩
              rw [ihiff r]
              simp only
              constructor
              · intro hh
                exact (key r).mpr (Or.inr hh)
              · intro hh
                rcases (key r).mp hh with ⟨_, hlen⟩ | hgood
                · exact absurd hlen hcond
                · exact hgood
      · have hbf : busy d = false := by
          simpa using hb
        cases st with
        | some s =>
            obtain ⟨hs1, hs2, hs3, hs4⟩ := hinv
            have heq : free_scan busy trip (k + 1) d (some s) =
                free_scan busy trip k (d + 1) (some s) := by
              simp [free_scan, hbf]
            have hinv' : today ≤ s ∧ s < d + 1 ∧
                (∀ x, s ≤ x → x < d + 1 → busy x = false) ∧
                (s = today ∨ busy (s - 1) = true) := by
              refine ⟨hs1, by omega, fun x hx1 hx2 => ?_, hs4⟩
              rcases lt_or_eq_of_le (by omega : x ≤ d) with hlt | heqd
              · exact hs3 x hx1 hlt
              · rw [heqd]
                exact hbf
            obtain ⟨ihiff, ihpair⟩ := ih (d + 1) (some s) hd' (by omega) hinv'
            rw [heq]
            exact ⟨ihiff, ihpair⟩
        | none =>
            have heq : free_scan busy trip (k + 1) d none =
                free_scan busy trip k (d + 1) (some d) := by
              simp [free_scan, hbf]
            have htoday : today ≤ d := by
              push_cast at hd
              omega
            have hinv' : today ≤ d ∧ d < d + 1 ∧
                (∀ x, d ≤ x → x < d + 1 → busy x = false) ∧
                (d = today ∨ busy (d - 1) = true) := by
              refine ⟨htoday, by omega, fun x hx1 hx2 => ?_, hinv⟩
              have hxd : x = d := by omega
              rw [hxd]
              exact hbf
            obtain ⟨ihiff, ihpair⟩ := ih (d + 1) (some d) hd' (by omega) hinv'
            rw [heq]
            exact ⟨ihiff, ihpair⟩

/-- A day is non-busy exactly when no event's (inclusive) date interval
touches it. -/
theorem busy_day_eq_false_iff (events : List CalendarEvent) (d : Int) :
    busy_day events d = false ↔
      ∀ e ∈ events, ¬ (e.start ≤ d ∧ d ≤ e.«end») := by
  simp [busy_day]

/-- Claim C3: for every calendar, trip length `t ≥ 1` and window `w ≥ 1`,
`find_free_date_ranges` (after the busy-set construction) returns exactly the
maximal runs of consecutive non-busy days inside `[today, today + w - 1]`
whose length is at least `t`, in chronological (disjoint, increasing) order;
no returned range contains a day touched by any event, and no returned range
extends past the final day of the window. -/
theorem C3_find_free_date_ranges_events_correct (events : List CalendarEvent)
    (today trip : Int) (window : Nat) (htrip : 1 ≤ trip) (hwindow : 1 ≤ window) :
    (∀ r, r ∈ find_free_date_ranges_events events today trip window ↔
        isQualifyingRun (busy_day events) today window trip r) ∧
    (find_free_date_ranges_events events today trip window).Pairwise
      (fun a b => a.«end» < b.start) ∧
    (∀ r ∈ find_free_date_ranges_events events today trip window,
      ∀ e ∈ events, ∀ x, r.start ≤ x → x ≤ r.«end» →
        ¬ (e.start ≤ x ∧ x ≤ e.«end»)) ∧
    (∀ r ∈ find_free_date_ranges_events events today trip window,
      today ≤ r.start ∧ r.«end» ≤ today + window - 1) := by
  obtain ⟨hiff, hpair⟩ := free_scan_spec (busy_day events) trip today window htrip
    window today none (by push_cast; ring) le_rfl (Or.inl rfl)
  have hiff' : ∀ r, r ∈ find_free_date_ranges_events events today trip window ↔
      isQualifyingRun (busy_day events) today window trip r := by
    intro r
    rw [find_free_date_ranges_events, hiff r]
    simp only
    constructor
    · rintro ⟨hq, _⟩
      exact hq
    · intro hq
      exact ⟨hq, hq.1.1⟩
  refine ⟨hiff', hpair, ?_, ?_⟩
  · intro r hr e he x hx1 hx2
    obtain ⟨⟨_, _, _, hfree, _, _⟩, _⟩ := (hiff' r).mp hr
    exact (busy_day_eq_false_iff events x).mp (hfree x hx1 hx2) e he
  · intro r hr
    obtain ⟨⟨h1, _, h3, _, _, _⟩, _⟩ := (hiff' r).mp hr
    exact ⟨h1, by omega⟩

/-- Witness for C3 at a concrete calendar (the single busy day `3` given by
`work_event 0 "U"`), `today = 0`, `trip = 5`, `window = 60`, with both
hypotheses discharged. -/
theorem C3_find_free_date_ranges_events_correct_witness :
    ((1 : Int) ≤ 5 ∧ (1 : Nat) ≤ 60) ∧
    ((∀ r, r ∈ find_free_date_ranges_events [work_event 0 "U"] 0 5 60 ↔
        isQualifyingRun (busy_day [work_event 0 "U"]) 0 60 5 r) ∧
    (find_free_date_ranges_events [work_event 0 "U"] 0 5 60).Pairwise
      (fun a b => a.«end» < b.start) ∧
    (∀ r ∈ find_free_date_ranges_events [work_event 0 "U"] 0 5 60,
      ∀ e ∈ [work_event 0 "U"], ∀ x, r.start ≤ x → x ≤ r.«end» →
        ¬ (e.start ≤ x ∧ x ≤ e.«end»)) ∧
    (∀ r ∈ find_free_date_ranges_events [work_event 0 "U"] 0 5 60,
      (0 : Int) ≤ r.start ∧ r.«end» ≤ 0 + (60 : Nat) - 1)) :=
  ⟨⟨by norm_num, by norm_num⟩,
    C3_find_free_date_ranges_events_correct [work_event 0 "U"] 0 5 60
      (by norm_num) (by norm_num)⟩

/-- A pairwise-irreflexive-at-`a` list whose members are exactly `a` is the
singleton `[a]`. -/
theorem list_eq_singleton_of_mem_iff {α : Type} (L : List α) (a : α)
    (R : α → α → Prop) (hR : ¬ R a a) (hp : L.Pairwise R)
    (h : ∀ x, x ∈ L ↔ x = a) : L = [a] := by
  cases L with
  | nil => exact absurd ((h a).mpr rfl) (List.not_mem_nil a)
  | cons b t =>
      have hb : b = a := (h b).mp (List.mem_cons_self b t)
      subst hb
      have ht : t = [] := by
        cases t with
        | nil => rfl
        | cons c u =>
            have hc : c = b :=
              (h c).mp (List.mem_cons_of_mem b (List.mem_cons_self c u))
            rw [List.pairwise_cons] at hp
            have hcc := hp.1 c (List.mem_cons_self c u)
            rw [hc] at hcc
            exact absurd hcc hR
      rw [ht]

/-- Claim C4 (amended): for a user whose stored calendar is empty,
`find_free_date_ranges` with `trip_duration_days = 5` and `window_days = 60`
first seeds the mock all-day busy event on `today + 3`, and therefore returns
exactly one `DateRange`, spanning `[today + 4, today + 59]` (56 days) — not
the full 60-day window starting at `today`. -/
theorem C4_empty_calendar_seeded_range (today : Int) (user_id : String)
    (s : Store) (hempty : get_calendar_events user_id s = []) :
    (find_free_date_ranges today user_id 5 60 s).1 =
      [{ start := today + 4, «end» := today + 59 }] := by
  have hseed : get_calendar_events user_id (seed_mock_calendar today user_id s) =
      [work_event today user_id] := by
    have hempty' : s.calendar_events user_id = [] := hempty
    simp [seed_mock_calendar, set_calendar_events, get_calendar_events, hempty']
  have hmain : (find_free_date_ranges today user_id 5 60 s).1 =
      find_free_date_ranges_events [work_event today user_id] today 5 60 := by
    simp only [find_free_date_ranges, hseed]
  rw [hmain]
  have hbusy : ∀ x, busy_day [work_event today user_id] x = true ↔
      x = today + 3 := by
    intro x
    simp only [busy_day, List.any_cons, List.any_nil, Bool.or_false,
      decide_eq_true_eq, work_event]
    omega
  obtain ⟨hiff, hpair⟩ := free_scan_spec (busy_day [work_event today user_id])
    5 today 60 (by norm_num) 60 today none (by push_cast; ring) le_rfl
    (Or.inl rfl)
  have hqual : ∀ r, isQualifyingRun (busy_day [work_event today user_id])
      today 60 5 r ↔ r = { start := today + 4, «end» := today + 59 } := by
    intro r
    constructor
    · rintro ⟨⟨h1, h2, h3, h4, h5, h6⟩, h7⟩
      have hstart : r.start = today + 4 := by
        rcases h5 with h5 | h5
        · exfalso
          have hend : r.«end» < today + 3 := by
            by_contra hc
            push_neg at hc
            have hfr := h4 (today + 3) (by omega) (by omega)
            have hbt := (hbusy (today + 3)).mpr rfl
            rw [hfr] at hbt
            exact Bool.noConfusion hbt
          omega
        · have := (hbusy (r.start - 1)).mp h5
          omega
      have hend : r.«end» = today + 59 := by
        rcases h6 with h6 | h6
        · push_cast at h6
          omega
        · have := (hbusy (r.«end» + 1)).mp h6
          omega
      exact DateRange_eq_mk r (today + 4) (today + 59) hstart hend
    · rintro rfl
      rw [isQualifyingRun_mk_iff]
      refine ⟨⟨by omega, by omega, by push_cast; omega, ?_, ?_, ?_⟩, by omega⟩
      · intro x hx1 hx2
        have hnot : ¬ (busy_day [work_event today user_id] x = true) := by
          rw [hbusy x]
          omega
        simpa using hnot
      · right
        exact (hbusy _).mpr (by omega)
      · left
        push_cast
        ring
  have hiff' : ∀ r,
      r ∈ find_free_date_ranges_events [work_event today user_id] today 5 60 ↔
      r = { start := today + 4, «end» := today + 59 } := by
    intro r
    rw [find_free_date_ranges_events, hiff r]
    simp only
    constructor
    · rintro ⟨hq, _⟩
      exact (hqual r).mp hq
    · rintro rfl
      refine ⟨(hqual _).mpr rfl, ?_⟩
      simp only [DateRange_mk_start]
      omega
  exact list_eq_singleton_of_mem_iff _ _ _
    (by simp only [DateRange_mk_start, DateRange_mk_end]; omega) hpair hiff'

/-- Counterexample to claim C4 as stated: on an empty stored calendar with
`today = 0`, the single returned range is `[4, 59]`, not the full-window
`[0, 59]` the claim requires — `find_free_date_ranges` seeds a mock busy day
at `today + 3` before scanning. -/
theorem C4_counterexample :
    (find_free_date_ranges 0 "U" 5 60 empty_store).1 =
      [{ start := 4, «end» := 59 }] ∧
    (find_free_date_ranges 0 "U" 5 60 empty_store).1 ≠
      [{ start := 0, «end» := 59 }] := by
  decide

/-- Witness for the amended C4 on the empty store with `today = 0`. -/
theorem C4_empty_calendar_seeded_range_witness :
    get_calendar_events "U" empty_store = [] ∧
    (find_free_date_ranges 0 "U" 5 60 empty_store).1 =
      [{ start := (0 : Int) + 4, «end» := (0 : Int) + 59 }] :=
  ⟨rfl, C4_empty_calendar_seeded_range 0 "U" empty_store rfl⟩
